import Mathlib

/-!
Shallow embedding of the llegapo-server core (a Santiago de Chile transit
API wrapper) in Lean 4, together with theorems settling the specification
claims against it.

Sources embedded:
  - src/src/utils/validators.ts  (validateStopCode, validateServiceCode,
    validateAndCleanStopCode, validateAndCleanServiceCode)
  - src/index.ts                 (the standalone validateStopCode variant,
    lines 387-412, which uses different bounds and no trimming)
  - src/src/utils/formatters.ts  (formatArrivals, formatRouteStops)
  - src/src/utils/red-client.ts  (getStopArrivals error wrapping,
    extractAndSetJwt, refreshJwtIfNeeded, invalidateJwtCache,
    getJwtCacheInfo)
  - src/unnamed/part_002         (StopService.getArrivals,
    StopService.getStopStatistics, RouteService.getRoute,
    RouteService.getRouteStops)

Modelling conventions: JavaScript strings are Lean Strings, with
trim/toUpperCase/regex-class tests defined over the character list
(jsTrim, jsToUpper, jsTestAll) so that they evaluate under kernel
reduction; on the ASCII inputs at play they coincide with the JS
operations. Optional upstream JSON fields are Option; JS exceptions are
Except; wall-clock timestamps are Nat milliseconds passed explicitly;
network calls are oracle parameters (functions supplied by the caller
describing the upstream outcome); the statistics average is exact rational
arithmetic. Console logging is dropped throughout.
-/

namespace LlegaPo

/-- The JS String.prototype.trim(): drop whitespace from both ends. Defined
over the character list (Lean's own String.trim is identical on the ASCII
inputs at play but is opaque to kernel reduction). -/
def jsTrim (s : String) : String :=
  ⟨(((s.data.dropWhile Char.isWhitespace).reverse).dropWhile Char.isWhitespace).reverse⟩

/-- The JS String.prototype.toUpperCase(), over the character list (ASCII
case mapping, which is all the inputs at play use). -/
def jsToUpper (s : String) : String := ⟨s.data.map Char.toUpper⟩

/-- The JS regex test /^[c]+$/.test(s) for a character class c: every
character of s satisfies the class. JS test on an empty string with a +
quantifier is false, but every caller already rules the empty string out
before testing; the difference never materialises. -/
def jsTestAll (p : Char → Bool) (s : String) : Bool := s.data.all p

/-- Character class of the regex /^[A-Za-z0-9]+$/ used by the validators. -/
def isAlnumChar (c : Char) : Bool := c.isAlpha || c.isDigit

/-- Character class of the regex /^[A-Za-z0-9\-_]+$/ used by validateServiceCode. -/
def isServiceChar (c : Char) : Bool := c.isAlpha || c.isDigit || c == '-' || c == '_'

/-- Result record of the validators (src/src/utils/validators.ts, interface
ValidationResult). -/
structure ValidationResult where
  valid : Bool
  error : Option String
deriving Repr, DecidableEq

/-- validateStopCode from src/src/utils/validators.ts lines 6-39: requires a
non-empty input whose trimmed value has length in 3..10 and is alphanumeric. -/
def validateStopCode (codsimt : String) : ValidationResult :=
  if codsimt = "" then
    { valid := false, error := some "Código de paradero es requerido" }
  else
    let trimmedCode := jsTrim codsimt
    if trimmedCode.length < 3 then
      { valid := false, error := some "Código de paradero debe tener al menos 3 caracteres" }
    else if trimmedCode.length > 10 then
      { valid := false, error := some "Código de paradero muy largo (máximo 10 caracteres)" }
    else if !(jsTestAll isAlnumChar trimmedCode) then
      { valid := false, error := some "Código de paradero solo puede contener letras y números" }
    else
      { valid := true, error := none }

/-- validateServiceCode from src/src/utils/validators.ts lines 44-77: requires
a non-empty input whose trimmed value has length in 1..10 over letters,
digits, hyphen and underscore. -/
def validateServiceCode (codser : String) : ValidationResult :=
  if codser = "" then
    { valid := false, error := some "Código de servicio es requerido" }
  else
    let trimmedCode := jsTrim codser
    if trimmedCode.length < 1 then
      { valid := false, error := some "Código de servicio debe tener al menos 1 carácter" }
    else if trimmedCode.length > 10 then
      { valid := false, error := some "Código de servicio muy largo (máximo 10 caracteres)" }
    else if !(jsTestAll isServiceChar trimmedCode) then
      { valid := false, error := some "Código de servicio contiene caracteres inválidos" }
    else
      { valid := true, error := none }

/-- The standalone validateStopCode of src/index.ts lines 387-412: no
trimming, raw length in 2..10, alphanumeric (regex /^[A-Z0-9]+$/i). -/
def indexValidateStopCode (stopCode : String) : ValidationResult :=
  if stopCode = "" then
    { valid := false, error := some "Código de parada requerido" }
  else if stopCode.length < 2 || stopCode.length > 10 then
    { valid := false, error := some "Código de parada debe tener entre 2 y 10 caracteres" }
  else if !(jsTestAll isAlnumChar stopCode) then
    { valid := false, error := some "Código de parada contiene caracteres inválidos" }
  else
    { valid := true, error := none }

/-- ValidationError from src/unnamed/part_005 (custom Error subclass). -/
structure ValidationError where
  message : String
deriving Repr, DecidableEq

/-- validateAndCleanStopCode from src/src/utils/validators.ts lines 82-90:
throws on invalid input, returns the trimmed UPPERCASED code otherwise. -/
def validateAndCleanStopCode (codsimt : String) : Except ValidationError String :=
  let validation := validateStopCode codsimt
  if validation.valid then
    Except.ok (jsToUpper (jsTrim codsimt))
  else
    Except.error { message := validation.error.getD "Código de paradero inválido" }

/-- validateAndCleanServiceCode from src/src/utils/validators.ts lines 95-103:
throws on invalid input, returns the trimmed code otherwise (no uppercasing
in the source). -/
def validateAndCleanServiceCode (codser : String) : Except ValidationError String :=
  let validation := validateServiceCode codser
  if validation.valid then
    Except.ok (jsTrim codser)
  else
    Except.error { message := validation.error.getD "Código de servicio inválido" }

/-- JS truthiness of an optional string field: undefined and the empty
string are falsy, every other string is truthy. -/
def jsTruthyOpt : Option String → Bool
  | none => false
  | some s => s != ""

/-- RedStopArrival from src/unnamed/part_005: one upstream-reported service
arriving at a stop. The second-bus fields are optional in the source. -/
structure RedStopArrival where
  servicio : String
  destino : String
  distanciabus1 : String
  horaprediccionbus1 : String
  ppubus1 : String
  distanciabus2 : Option String
  horaprediccionbus2 : Option String
  ppubus2 : Option String
deriving Repr, DecidableEq

/-- One element of the buses list produced by formatArrivals. -/
structure FormattedBus where
  distancia : String
  tiempo : String
  patente : String
deriving Repr, DecidableEq

/-- FormattedArrival from src/unnamed/part_005. -/
structure FormattedArrival where
  servicio : String
  destino : String
  buses : List FormattedBus
deriving Repr, DecidableEq

/-- formatArrivals from src/src/utils/formatters.ts lines 6-27: per record,
build a bus list of bus 1 plus (when distanciabus2 is truthy) bus 2 with
tiempo and patente defaulted to the empty string, then keep only buses whose
distancia and tiempo are truthy. -/
def formatArrivals (arrivals : List RedStopArrival) : List FormattedArrival :=
  arrivals.map fun arrival =>
    { servicio := arrival.servicio
      destino := arrival.destino
      buses :=
        (([{ distancia := arrival.distanciabus1
             tiempo := arrival.horaprediccionbus1
             patente := arrival.ppubus1 }] : List FormattedBus) ++
          (if jsTruthyOpt arrival.distanciabus2 then
            ([{ distancia := arrival.distanciabus2.getD ""
                tiempo := arrival.horaprediccionbus2.getD ""
                patente := arrival.ppubus2.getD "" }] : List FormattedBus)
          else [])).filter fun bus => bus.distancia != "" && bus.tiempo != "" }

/-- JWTCache from src/unnamed/part_005: the cached credential. expiry is a
millisecond timestamp; RedClient initialises it to token = "", expiry = 0. -/
structure JWTCache where
  token : String
  expiry : Nat
deriving Repr, DecidableEq

/-- RedClientError from src/unnamed/part_005: the typed error RedClient
throws, carrying a message and a statusCode. -/
structure RedClientError where
  message : String
  statusCode : Nat
deriving Repr, DecidableEq

/-- Outcome of an axios request as seen by an error handler: the message and
the HTTP status of the response when one was received. -/
structure AxiosError where
  message : String
  responseStatus : Option Nat
deriving Repr, DecidableEq

/-- The candidate-selection loop of RedClient.extractAndSetJwt
(src/src/utils/red-client.ts lines 295-325): walk the ordered pattern list,
skip patterns with no capture, skip captures shorter than 20 characters
(the anti-false-positive guard), take the first remaining capture. -/
def findJwtCandidate : List (Option String) → Option String
  | [] => none
  | none :: rest => findJwtCandidate rest
  | some rawToken :: rest =>
    if rawToken.length < 20 then findJwtCandidate rest else some rawToken

/-- RedClient.extractAndSetJwt from src/src/utils/red-client.ts lines
278-331. The regex engine and Buffer are external: patternMatches lists,
for each of the six jwtPatterns in order, the first capture of that pattern
on the html (none when it does not match), and decodeBase64 stands for
Buffer.from(raw, "base64").toString("utf-8") with its failure as none (the
source falls back to the raw capture in that catch branch). htmlLength is
html.length; a body under 100 characters is rejected up front. On success
the cache is replaced with the token and expiry now + jwtCacheTime. -/
def extractAndSetJwt (decodeBase64 : String → Option String)
    (jwtCacheTime now htmlLength : Nat)
    (patternMatches : List (Option String)) : Option JWTCache :=
  if htmlLength < 100 then none
  else
    match findJwtCandidate patternMatches with
    | none => none
    | some rawToken =>
      match decodeBase64 rawToken with
      | some decoded => some { token := decoded, expiry := now + jwtCacheTime }
      | none => some { token := rawToken, expiry := now + jwtCacheTime }

/-- RedClient.refreshJwtIfNeeded from src/src/utils/red-client.ts lines
130-162, with the two acquisition strategies as oracles: tryOriginal is the
cache tryOriginalJwtMethod would install (none when it throws or finds no
token), tryVercel likewise for tryVercelStrategies. Returns the cache after
the call together with the number of acquisition rounds issued (0 when the
cached token is still valid and the method returns immediately). When both
strategies fail it throws RedClientError 503. -/
def refreshJwtIfNeeded (tryOriginal tryVercel : Option JWTCache)
    (now : Nat) (cache : JWTCache) : Except RedClientError (JWTCache × Nat) :=
  if cache.token != "" && now < cache.expiry then
    Except.ok (cache, 0)
  else
    match tryOriginal with
    | some newCache => Except.ok (newCache, 1)
    | none =>
      match tryVercel with
      | some newCache => Except.ok (newCache, 2)
      | none =>
        Except.error
          { message := "No se pudo obtener token de autenticación después de múltiples intentos"
            statusCode := 503 }

/-- A sequence of refreshJwtIfNeeded calls at the given timestamps, threading
the cache and adding up the acquisition rounds issued. -/
def runRefreshCalls (tryOriginal tryVercel : Option JWTCache) :
    List Nat → JWTCache → Except RedClientError (JWTCache × Nat)
  | [], cache => Except.ok (cache, 0)
  | t :: ts, cache =>
    match refreshJwtIfNeeded tryOriginal tryVercel t cache with
    | Except.error e => Except.error e
    | Except.ok (cache2, n) =>
      match runRefreshCalls tryOriginal tryVercel ts cache2 with
      | Except.error e => Except.error e
      | Except.ok (cache3, m) => Except.ok (cache3, n + m)

/-- RedClient.invalidateJwtCache from src/src/utils/red-client.ts lines
358-362: reset the cache to token = "", expiry = 0. -/
def invalidateJwtCache (_cache : JWTCache) : JWTCache :=
  { token := "", expiry := 0 }

/-- Return record of RedClient.getJwtCacheInfo. -/
structure JwtCacheInfo where
  hasToken : Bool
  expiresIn : Nat
  isValid : Bool
deriving Repr, DecidableEq

/-- RedClient.getJwtCacheInfo from src/src/utils/red-client.ts lines 367-380:
hasToken is the truthiness of the token, expiresIn is max(0, expiry - now)
in whole seconds, isValid requires a truthy token and now < expiry.
(Nat subtraction and division encode Math.max(0, ...) and Math.floor.) -/
def getJwtCacheInfo (now : Nat) (cache : JWTCache) : JwtCacheInfo :=
  let expiresIn := cache.expiry - now
  { hasToken := cache.token != ""
    expiresIn := expiresIn / 1000
    isValid := cache.token != "" && now < cache.expiry }

/-- One element of the upstream servicios collection (the item records of
RedApiStopResponse in src/unnamed/part_005). -/
structure RawArrivalItem where
  codigorespuesta : String
  servicio : String
  destino : String
  distanciabus1 : String
  horaprediccionbus1 : String
  ppubus1 : String
  distanciabus2 : Option String
  horaprediccionbus2 : Option String
  ppubus2 : Option String
deriving Repr, DecidableEq

/-- Shape of the nested servicios value the upstream may deliver: an object
carrying an item array ({servicios: {item: [...]}}), or a map/dictionary of
records keyed by arbitrary names ({servicios: {a: {...}, b: {...}}}, which
has no item property). -/
inductive ServiciosNode where
  | itemArray (items : List RawArrivalItem)
  | mapOfRecords (entries : List (String × RawArrivalItem))
deriving Repr, DecidableEq

/-- The upstream arrivals payload: servicios may be absent altogether. -/
structure UpstreamStopPayload where
  servicios : Option ServiciosNode
deriving Repr, DecidableEq

/-- The JS property access servicios.item: an item array yields the array, a
map-shaped servicios object has no item property, so the access yields
undefined. -/
def serviciosItem : ServiciosNode → Option (List RawArrivalItem)
  | ServiciosNode.itemArray items => some items
  | ServiciosNode.mapOfRecords _ => none

/-- The per-item projection StopService.getArrivals applies (drop
codigorespuesta, keep the arrival fields). -/
def toRedStopArrival (item : RawArrivalItem) : RedStopArrival :=
  { servicio := item.servicio
    destino := item.destino
    distanciabus1 := item.distanciabus1
    horaprediccionbus1 := item.horaprediccionbus1
    ppubus1 := item.ppubus1
    distanciabus2 := item.distanciabus2
    horaprediccionbus2 := item.horaprediccionbus2
    ppubus2 := item.ppubus2 }

/-- Response-processing step of StopService.getArrivals (src/unnamed/part_002
lines 670-682): data.servicios?.item?.filter(codigorespuesta === "00")
.map(projection) || []. Both optional-chain misses (servicios absent, or a
servicios value without an item array) fall through to the empty array. -/
def processArrivals (data : UpstreamStopPayload) : List RedStopArrival :=
  ((data.servicios.bind serviciosItem).map fun items =>
    (items.filter fun item => item.codigorespuesta == "00").map toRedStopArrival).getD []

/-- RedClient.getStopArrivals from src/src/utils/red-client.ts lines 37-92,
restricted to its error handling: outcome is what the axios call produced
after the JWT refresh. Any axios failure is wrapped in a RedClientError
whose statusCode is the literal 500 (the upstream HTTP status is only
logged, never stored). -/
def redGetStopArrivals (codsimt : String)
    (outcome : Except AxiosError UpstreamStopPayload) :
    Except RedClientError UpstreamStopPayload :=
  match outcome with
  | Except.ok data => Except.ok data
  | Except.error e =>
    Except.error
      { message := "No se pudo obtener información de arrivals para el paradero "
          ++ codsimt ++ ": " ++ e.message
        statusCode := 500 }

/-- ApiResponse from src/unnamed/part_005 (the Date.now() timestamp field is
dropped: wall-clock noise with no bearing on any claim). -/
structure ApiResponse (α : Type) where
  success : Bool
  data : α
  error : Option String
deriving Repr, DecidableEq

/-- StopService.getArrivals from src/unnamed/part_002 lines 659-710. fetch is
redClient.getStopArrivals as an oracle, applied to the cleaned stop code.
A ValidationError from validateAndCleanStopCode is rethrown; every other
error is caught and turned into a success = false ApiResponse with empty
data and the error message. -/
def stopGetArrivals (codsimt : String)
    (fetch : String → Except RedClientError UpstreamStopPayload) :
    Except ValidationError (ApiResponse (List RedStopArrival)) :=
  match validateAndCleanStopCode codsimt with
  | Except.error e => Except.error e
  | Except.ok cleanCode =>
    match fetch cleanCode with
    | Except.ok data =>
      Except.ok { success := true, data := processArrivals data, error := none }
    | Except.error e =>
      Except.ok { success := false, data := [], error := some e.message }

/-- A stop of a route leg (paraderos entries of RedApiRouteResponse in
src/unnamed/part_005); pos is [lat, lon], modelled with exact rationals. -/
structure RouteParadero where
  cod : String
  name : String
  comuna : String
  pos : Rat × Rat
deriving Repr, DecidableEq

/-- A schedule entry of a route leg. -/
structure Horario where
  tipoDia : String
  inicio : String
  fin : String
deriving Repr, DecidableEq

/-- One leg of the upstream route payload. The fields are optional: the
services default every one of them (|| fallbacks) before use, since the
upstream contract is unversioned. -/
structure RouteLegRaw where
  destino : Option String
  paraderos : Option (List RouteParadero)
  path : Option (List (Rat × Rat))
  horarios : Option (List Horario)
  itinerario : Option Bool
deriving Repr, DecidableEq

/-- RedApiRouteResponse from src/unnamed/part_005: at most an ida (outbound)
and a regreso (return) leg. -/
structure RedApiRouteResponse where
  ida : Option RouteLegRaw
  regreso : Option RouteLegRaw
deriving Repr, DecidableEq

/-- RedRoute from src/unnamed/part_005: the canonical single-leg route. -/
structure RedRoute where
  destino : String
  paraderos : List RouteParadero
  path : List (Rat × Rat)
  horarios : List Horario
  itinerario : Bool
deriving Repr, DecidableEq

/-- The JS expression a || b on two object-or-undefined values: an object is
always truthy, so the first present operand wins. -/
def jsOrOpt {α : Type} (a b : Option α) : Option α :=
  match a with
  | some x => some x
  | none => b

/-- The field defaulting RouteService.getRoute applies to the selected leg
(src/unnamed/part_002 lines 36-42): destino || "", paraderos || [],
path || [], horarios || [], itinerario || false. On strings the || with ""
as fallback maps both undefined and "" to "", i.e. getD; on arrays and
booleans likewise. -/
def normalizeRouteLeg (leg : RouteLegRaw) : RedRoute :=
  { destino := leg.destino.getD ""
    paraderos := leg.paraderos.getD []
    path := leg.path.getD []
    horarios := leg.horarios.getD []
    itinerario := leg.itinerario.getD false }

/-- The empty RedRoute the services return in failure responses. -/
def emptyRedRoute : RedRoute :=
  { destino := "", paraderos := [], path := [], horarios := [], itinerario := false }

/-- RouteService.getRoute from src/unnamed/part_002 lines 19-87. fetch is
redClient.getRoute as an oracle, applied to the cleaned service code. The
leg is selected by data.ida || data.regreso (ida preferred); when neither is
present the thrown Error is caught by the method's own catch and becomes a
success = false ApiResponse, as does any upstream error. A ValidationError
is rethrown. -/
def routeServiceGetRoute (codser : String)
    (fetch : String → Except RedClientError RedApiRouteResponse) :
    Except ValidationError (ApiResponse RedRoute) :=
  match validateAndCleanServiceCode codser with
  | Except.error e => Except.error e
  | Except.ok cleanCode =>
    match fetch cleanCode with
    | Except.error e =>
      Except.ok { success := false, data := emptyRedRoute, error := some e.message }
    | Except.ok data =>
      match jsOrOpt data.ida data.regreso with
      | none =>
        Except.ok { success := false, data := emptyRedRoute
                    error := some "No se encontraron datos de recorrido" }
      | some routeData =>
        Except.ok { success := true, data := normalizeRouteLeg routeData, error := none }

/-- A stop as formatRouteStops emits it. -/
structure FormattedStop where
  codigo : String
  nombre : String
  comuna : String
  latitud : Rat
  longitud : Rat
deriving Repr, DecidableEq

/-- formatRouteStops from src/src/utils/formatters.ts lines 64-74. -/
def formatRouteStops (route : RedRoute) : List FormattedStop :=
  route.paraderos.map fun p =>
    { codigo := p.cod, nombre := p.name, comuna := p.comuna
      latitud := p.pos.1, longitud := p.pos.2 }

/-- One comuna group of RouteService.getRouteStops. -/
structure ComunaGroup where
  nombre : String
  totalParaderos : Nat
  paraderos : List String
deriving Repr, DecidableEq

/-- Payload of RouteService.getRouteStops. -/
structure RouteStopsData where
  servicio : String
  totalParaderos : Nat
  paraderos : List FormattedStop
  comunas : List ComunaGroup
deriving Repr, DecidableEq

/-- The comunasMap accumulation of RouteService.getRouteStops (a JS Map keyed
in insertion order): append the stop code to its comuna's list, creating the
comuna entry at the end on first sight. -/
def addStopToComunas (groups : List (String × List String)) (comuna codigo : String) :
    List (String × List String) :=
  if groups.any fun g => g.fst == comuna then
    groups.map fun g => if g.fst == comuna then (g.fst, g.snd ++ [codigo]) else g
  else
    groups ++ [(comuna, [codigo])]

/-- The success payload RouteService.getRouteStops builds from the route
returned by getRoute (src/unnamed/part_002 lines 337-365). -/
def routeStopsDataOf (codser : String) (route : RedRoute) : RouteStopsData :=
  let stops := formatRouteStops route
  let comunasMap := stops.foldl (fun m s => addStopToComunas m s.comuna s.codigo) []
  { servicio := jsToUpper codser
    totalParaderos := stops.length
    paraderos := stops
    comunas := comunasMap.map fun g =>
      { nombre := g.fst, totalParaderos := g.snd.length, paraderos := g.snd } }

/-- RouteService.getRouteStops from src/unnamed/part_002 lines 301-391:
delegates to getRoute, reshapes its data on success, mirrors the failure
response otherwise (ValidationError rethrown). -/
def routeServiceGetRouteStops (codser : String)
    (fetch : String → Except RedClientError RedApiRouteResponse) :
    Except ValidationError (ApiResponse RouteStopsData) :=
  match routeServiceGetRoute codser fetch with
  | Except.error e => Except.error e
  | Except.ok routeResult =>
    if routeResult.success then
      Except.ok { success := true, data := routeStopsDataOf codser routeResult.data
                  error := none }
    else
      Except.ok { success := false
                  data := { servicio := codser, totalParaderos := 0
                            paraderos := [], comunas := [] }
                  error := routeResult.error }

/-- Leg selection and defaulting of the /v1/routes/:codser handler in
src/index.ts lines 612-678: routeData = data.ida || data.regreso, then the
same field defaulting; none when neither leg is present (the handler then
throws and answers 500). -/
def indexRouteData (data : RedApiRouteResponse) : Option RedRoute :=
  (jsOrOpt data.ida data.regreso).map normalizeRouteLeg

/-- The JS spread [...new Set(xs)]: the distinct elements of xs in order of
first occurrence (Set iteration is insertion order). seen accumulates the
elements already emitted. -/
def dedupFirstAux (seen : List String) : List String → List String
  | [] => []
  | x :: xs =>
    if seen.contains x then dedupFirstAux seen xs
    else x :: dedupFirstAux (x :: seen) xs

/-- The JS update contador[servicio] = (contador[servicio] || 0) + 1 on an
object modelled as an association list in property insertion order: bump an
existing key in place, append a new key. -/
def bumpCount (key : String) : List (String × Nat) → List (String × Nat)
  | [] => [(key, 1)]
  | (k, v) :: rest =>
    if k == key then (k, v + 1) :: rest else (k, v) :: bumpCount key rest

/-- Numeric value of a decimal digit string, over the character list. -/
def decimalValue (cs : List Char) : Nat :=
  cs.foldl (fun n c => n * 10 + (c.toNat - 48)) 0

/-- Whether a JS object property key is an array index: the canonical
decimal string (non-empty, all digits, no leading zero except "0" itself)
of an integer below 2^32 - 1. Such keys are enumerated first, in ascending
numeric order, by Object.entries. -/
def isArrayIndexKey (s : String) : Bool :=
  match s.data with
  | [] => false
  | c :: cs =>
    (c :: cs).all Char.isDigit && (c != '0' || cs.isEmpty)
      && decimalValue (c :: cs) < 4294967295

/-- Ascending insertion by numeric key value, for the array-index keys of
Object.entries (keys are distinct, so stability is moot). -/
def insertAscByKey (x : String × Nat) : List (String × Nat) → List (String × Nat)
  | [] => [x]
  | y :: ys =>
    if decimalValue y.fst.data ≤ decimalValue x.fst.data then y :: insertAscByKey x ys
    else x :: y :: ys

/-- Object.entries on an object modelled as an insertion-ordered association
list: array-index keys first in ascending numeric order, then the remaining
string keys in insertion order (ECMAScript OrdinaryOwnPropertyKeys). -/
def jsObjectEntries (m : List (String × Nat)) : List (String × Nat) :=
  (m.filter fun kv => isArrayIndexKey kv.fst).foldl (fun acc x => insertAscByKey x acc) []
    ++ m.filter fun kv => !(isArrayIndexKey kv.fst)

/-- Stable insertion for the descending sort by frecuencia ((a, b) =>
b.frecuencia - a.frecuencia with the stable Array.prototype.sort): an
element goes after every earlier element of frequency ≥ its own. -/
def insertDescByFreq (x : String × Nat) : List (String × Nat) → List (String × Nat)
  | [] => [x]
  | y :: ys => if x.snd ≤ y.snd then y :: insertDescByFreq x ys else x :: y :: ys

/-- The stable descending sort by frequency applied to the entries list. -/
def sortDescByFreq (l : List (String × Nat)) : List (String × Nat) :=
  l.foldl (fun acc x => insertDescByFreq x acc) []

/-- Ascending insertion for the default JS string sort used on
serviciosDetectados. -/
def insertStringAsc (x : String) : List String → List String
  | [] => [x]
  | y :: ys => if x < y then x :: y :: ys else y :: insertStringAsc x ys

/-- [...set].sort(): the default lexicographic string sort. -/
def sortStringsAsc (l : List String) : List String :=
  l.foldl (fun acc x => insertStringAsc x acc) []

/-- Math.round((total / muestras) * 10) for natural total and positive
muestras, as an exact natural number of tenths: Math.round(q) = floor(q +
1/2), and floor(10 * total / muestras + 1/2) = (20 * total + muestras) /
(2 * muestras) with natural floor division. -/
def jsRoundTenths (total muestras : Nat) : Nat :=
  (20 * total + muestras) / (2 * muestras)

/-- The statistics payload of StopService.getStopStatistics (paradero,
intervaloSegundos, resumen and the per-sample timestamps are dropped:
configuration echo and wall-clock noise). The historico entries keep
totalServicios (the arrival-record count of the sample) and the deduplicated
service list. -/
structure StopStatistics where
  totalMuestras : Nat
  serviciosDetectados : List String
  serviciosMasComunes : List (String × Nat)
  promedioServiciosPorMuestra : Rat
  totalBusesDetectados : Nat
  historico : List (Nat × List String)
deriving Repr, DecidableEq

/-- The sampling-and-aggregation core of StopService.getStopStatistics
(src/unnamed/part_002 lines 1069-1151). samples lists, per polling
iteration, the arrivals getArrivals returned when result.success held, none
for a failed or throwing sample (the loop skips those). Per successful
sample the record count and the deduplicated service list go to historico
and every occurrence of a service bumps serviciosContador; entries are then
sorted descending by frecuencia, and the average is
Math.round((totalBusesDetectados / muestras) * 10) / 10. -/
def getStopStatisticsCore (samples : List (Option (List RedStopArrival))) :
    StopStatistics :=
  let successes := samples.filterMap id
  let historico := successes.map fun data =>
    let servicios := data.map fun a => a.servicio
    (servicios.length, dedupFirstAux [] servicios)
  let serviciosContador := successes.foldl
    (fun m data => (data.map fun a => a.servicio).foldl (fun m2 s => bumpCount s m2) m) []
  let todosLosServicios :=
    dedupFirstAux [] ((successes.map fun data => data.map fun a => a.servicio).flatten)
  let serviciosMasComunes := sortDescByFreq (jsObjectEntries serviciosContador)
  let totalBusesDetectados : Nat :=
    historico.foldl (fun total muestra => total + muestra.fst) 0
  let promedioServiciosPorMuestra : Rat :=
    if historico.length > 0 then
      ((jsRoundTenths totalBusesDetectados historico.length : Rat)) / 10
    else 0
  { totalMuestras := historico.length
    serviciosDetectados := sortStringsAsc todosLosServicios
    serviciosMasComunes := serviciosMasComunes
    promedioServiciosPorMuestra := promedioServiciosPorMuestra
    totalBusesDetectados := totalBusesDetectados
    historico := historico }

/-- A concrete arrival record for worked examples: only servicio varies. -/
def sampleArrival (servicio : String) : RedStopArrival :=
  { servicio := servicio, destino := "Maipú", distanciabus1 := "1500 mts."
    horaprediccionbus1 := "Entre 05 Y 10 min.", ppubus1 := "ABCD12"
    distanciabus2 := none, horaprediccionbus2 := none, ppubus2 := none }

/-- A concrete upstream arrival item with every field present and response
code "00". -/
def itemA : RawArrivalItem :=
  { codigorespuesta := "00", servicio := "405", destino := "Maipú"
    distanciabus1 := "500 mts.", horaprediccionbus1 := "Menos de 5 min."
    ppubus1 := "AB1234", distanciabus2 := none, horaprediccionbus2 := none
    ppubus2 := none }

/-- A second concrete upstream arrival item, with a second bus. -/
def itemB : RawArrivalItem :=
  { codigorespuesta := "00", servicio := "108", destino := "La Florida"
    distanciabus1 := "1200 mts.", horaprediccionbus1 := "Entre 05 Y 10 min."
    ppubus1 := "CD5678", distanciabus2 := some "2500 mts."
    horaprediccionbus2 := some "Entre 10 Y 15 min.", ppubus2 := some "EF9012" }

/-- An upstream arrivals payload whose servicios collection is delivered as
a two-entry map of records keyed "a" and "b" (the map form of the claim). -/
def mapShapedPayload : UpstreamStopPayload :=
  { servicios := some (ServiciosNode.mapOfRecords [("a", itemA), ("b", itemB)]) }

/-- A concrete ida leg with one stop, one path point and one schedule. -/
def legIda : RouteLegRaw :=
  { destino := some "Maipú"
    paraderos := some [{ cod := "PC205", name := "Parada 1 / Alameda", comuna := "Santiago"
                         pos := (-33, -70) }]
    path := some [(-33, -70), (-34, -71)]
    horarios := some [{ tipoDia := "LV", inicio := "05:30", fin := "23:00" }]
    itinerario := some true }

/-- A concrete regreso leg, distinct from legIda. -/
def legRegreso : RouteLegRaw :=
  { destino := some "Centro"
    paraderos := some []
    path := some []
    horarios := some []
    itinerario := some false }

/-- A route payload carrying both legs. -/
def bothLegsData : RedApiRouteResponse :=
  { ida := some legIda, regreso := some legRegreso }

/-- Claim C1, as stated, is false on the code: over one successful sample
with arrival records for services "405", "405", "108", getStopStatistics
does NOT yield mostCommonServices with frequency 1 per service together with
an average of 2 distinct services per sample. -/
theorem stats_per_sample_counting_cex :
    ¬ ((getStopStatisticsCore
          [some [sampleArrival "405", sampleArrival "405", sampleArrival "108"]]).serviciosMasComunes
        = [("405", 1), ("108", 1)] ∧
      (getStopStatisticsCore
          [some [sampleArrival "405", sampleArrival "405", sampleArrival "108"]]).promedioServiciosPorMuestra
        = 2) := by
  intro h
  exact absurd h.1 (by decide)

/-- Claim C1 amended: over that single sample getStopStatistics counts one
per arrival-record occurrence, yielding serviciosMasComunes =
[("405", 2), ("108", 1)], and promedioServiciosPorMuestra averages arrival
records per successful sample (3), not distinct service codes (2). -/
theorem stats_single_sample_counts_occurrences :
    (getStopStatisticsCore
        [some [sampleArrival "405", sampleArrival "405", sampleArrival "108"]]).serviciosMasComunes
      = [("405", 2), ("108", 1)] ∧
    (getStopStatisticsCore
        [some [sampleArrival "405", sampleArrival "405", sampleArrival "108"]]).promedioServiciosPorMuestra
      = 3 ∧
    (getStopStatisticsCore
        [some [sampleArrival "405", sampleArrival "405", sampleArrival "108"]]).totalBusesDetectados
      = 3 ∧
    (getStopStatisticsCore
        [some [sampleArrival "405", sampleArrival "405", sampleArrival "108"]]).totalMuestras
      = 1 := by
  refine ⟨by decide, ?_, by decide, by decide⟩
  show ((jsRoundTenths 3 1 : Nat) : Rat) / 10 = 3
  norm_num [jsRoundTenths]

/-- Claim C2, as stated, is false on the code: for the two-entry map-shaped
servicios payload, getArrivals returns the empty sequence, not a 2-element
sequence equal to the map's values. -/
theorem arrivals_map_shape_cex :
    stopGetArrivals "PC205" (fun _ => Except.ok mapShapedPayload)
      = Except.ok { success := true, data := [], error := none } ∧
    ([] : List RedStopArrival) ≠ [toRedStopArrival itemA, toRedStopArrival itemB] := by
  exact ⟨rfl, by decide⟩

/-- Claim C2 amended: a servicios collection delivered as a map of records
has no item array, so getArrivals normalizes it to the empty sequence (a
success result with empty data), for every entry list and every valid stop
code; only the servicios.item array shape is converted to records. -/
theorem arrivals_map_shape_normalizes_empty (codsimt : String)
    (entries : List (String × RawArrivalItem))
    (h : (validateStopCode codsimt).valid = true) :
    processArrivals { servicios := some (ServiciosNode.mapOfRecords entries) } = [] ∧
    stopGetArrivals codsimt
        (fun _ => Except.ok { servicios := some (ServiciosNode.mapOfRecords entries) })
      = Except.ok { success := true, data := [], error := none } := by
  constructor
  · rfl
  · simp [stopGetArrivals, validateAndCleanStopCode, h, processArrivals, serviciosItem]

/-- Witness for arrivals_map_shape_normalizes_empty at stop code "PC205" and
the two-entry map. -/
theorem arrivals_map_shape_normalizes_empty_witness :
    processArrivals { servicios := some (ServiciosNode.mapOfRecords [("a", itemA), ("b", itemB)]) } = [] ∧
    stopGetArrivals "PC205"
        (fun _ => Except.ok { servicios := some (ServiciosNode.mapOfRecords [("a", itemA), ("b", itemB)]) })
      = Except.ok { success := true, data := [], error := none } :=
  arrivals_map_shape_normalizes_empty "PC205" [("a", itemA), ("b", itemB)] (by decide)

/-- Claim C3, as stated, is false on the code: when the upstream call fails
with a known HTTP 404, RedClient.getStopArrivals throws a RedClientError
whose statusCode is the hardcoded 500, not the upstream status, and
StopService.getArrivals then swallows the typed error into a non-error
ApiResponse (success = false, empty data). -/
theorem upstream_error_swallowed_cex :
    redGetStopArrivals "PC205"
        (Except.error { message := "timeout of 10000ms exceeded", responseStatus := some 404 })
      = Except.error
          { message := "No se pudo obtener información de arrivals para el paradero PC205: timeout of 10000ms exceeded"
            statusCode := 500 } ∧
    (500 : Nat) ≠ 404 ∧
    stopGetArrivals "PC205"
        (fun _ => Except.error { message := "Request failed with status code 404", statusCode := 500 })
      = Except.ok { success := false, data := []
                    error := some "Request failed with status code 404" } := by
  exact ⟨rfl, by decide, rfl⟩

/-- Claim C3 amended: for every valid stop code and every upstream transport
failure, RedClient.getStopArrivals wraps the failure in a RedClientError
with statusCode fixed at 500 regardless of the upstream HTTP status, and
StopService.getArrivals catches that typed error and returns a non-error
ApiResponse with success = false, empty data and the error message. -/
theorem upstream_error_wrapped_and_swallowed (codsimt : String)
    (err : AxiosError) (e : RedClientError)
    (h : (validateStopCode codsimt).valid = true) :
    redGetStopArrivals codsimt (Except.error err)
      = Except.error
          { message := "No se pudo obtener información de arrivals para el paradero "
              ++ codsimt ++ ": " ++ err.message
            statusCode := 500 } ∧
    stopGetArrivals codsimt (fun _ => Except.error e)
      = Except.ok { success := false, data := [], error := some e.message } := by
  constructor
  · rfl
  · simp [stopGetArrivals, validateAndCleanStopCode, h]

/-- Witness for upstream_error_wrapped_and_swallowed at stop "PC205" with a
404-carrying axios failure. -/
theorem upstream_error_wrapped_and_swallowed_witness :
    redGetStopArrivals "PC205"
        (Except.error { message := "timeout", responseStatus := some 404 })
      = Except.error
          { message := "No se pudo obtener información de arrivals para el paradero PC205: timeout"
            statusCode := 500 } ∧
    stopGetArrivals "PC205"
        (fun _ => Except.error { message := "boom", statusCode := 502 })
      = Except.ok { success := false, data := [], error := some "boom" } :=
  upstream_error_wrapped_and_swallowed "PC205"
    { message := "timeout", responseStatus := some 404 }
    { message := "boom", statusCode := 502 } (by decide)

/-- Claim C4, as stated, is false on the code: the 2-character alphanumeric
string "AB" is rejected by validateStopCode (validators.ts requires at
least 3 characters), and the index.ts variant rejects " AB " although its
trimmed value is 2 alphanumeric characters (it never trims). -/
theorem stop_code_two_chars_rejected_cex :
    (validateStopCode "AB").valid = false ∧
    (jsTrim "AB").length = 2 ∧
    jsTestAll isAlnumChar (jsTrim "AB") = true ∧
    (indexValidateStopCode " AB ").valid = false ∧
    (jsTrim " AB ").length = 2 ∧
    jsTestAll isAlnumChar (jsTrim " AB ") = true := by
  decide

/-- Claim C4 amended: validators.ts validateStopCode accepts exactly the
inputs whose trimmed value is 3 to 10 alphanumeric characters, while the
index.ts validateStopCode accepts exactly the raw (untrimmed) 2 to 10
character alphanumeric strings. -/
theorem validateStopCode_characterization (s : String) :
    ((validateStopCode s).valid = true ↔
      3 ≤ (jsTrim s).length ∧ (jsTrim s).length ≤ 10 ∧
        jsTestAll isAlnumChar (jsTrim s) = true) ∧
    ((indexValidateStopCode s).valid = true ↔
      2 ≤ s.length ∧ s.length ≤ 10 ∧ jsTestAll isAlnumChar s = true) := by
  constructor
  · by_cases hs : s = ""
    · subst hs; decide
    · unfold validateStopCode
      simp only [if_neg hs]
      by_cases h3 : (jsTrim s).length < 3
      · simp [h3]
      · by_cases h10 : (jsTrim s).length > 10
        · simp [h3, h10]
        · by_cases hall : jsTestAll isAlnumChar (jsTrim s) = true
          · simp [h3, h10, hall]; omega
          · rw [Bool.not_eq_true] at hall
            simp [h3, h10, hall]
  · by_cases hs : s = ""
    · subst hs; decide
    · unfold indexValidateStopCode
      simp only [if_neg hs]
      by_cases hlen : (decide (s.length < 2) || decide (s.length > 10)) = true
      · simp only [hlen, if_true]
        simp only [Bool.or_eq_true, decide_eq_true_eq] at hlen
        simp; omega
      · simp only [hlen, if_false, Bool.false_eq_true]
        simp only [Bool.or_eq_true, decide_eq_true_eq, not_or, not_lt] at hlen
        by_cases hall : jsTestAll isAlnumChar s = true
        · simp [hall]; omega
        · rw [Bool.not_eq_true] at hall
          simp [hall]

/-- Claim C6, as stated, is false on the code: the cleaned service code is
only trimmed, never uppercased — validateAndCleanServiceCode "c01" returns
"c01", not "C01", and RouteService.getRoute passes the non-uppercased code
to the upstream call. -/
theorem service_code_not_uppercased_cex :
    validateAndCleanServiceCode "c01" = Except.ok "c01" ∧
    jsToUpper (jsTrim "c01") = "C01" ∧
    ("c01" : String) ≠ "C01" ∧
    routeServiceGetRoute "c01" (fun c => Except.error { message := c, statusCode := 500 })
      = Except.ok { success := false, data := emptyRedRoute, error := some "c01" } := by
  exact ⟨rfl, by decide, by decide, rfl⟩

/-- Claim C6 amended: on valid inputs the cleaned stop code is the input
trimmed and uppercased, but the cleaned service code is only trimmed (the
uppercasing half of the claim holds for stop codes alone). -/
theorem clean_codes_trim_and_case (s t : String)
    (hs : (validateStopCode s).valid = true)
    (ht : (validateServiceCode t).valid = true) :
    validateAndCleanStopCode s = Except.ok (jsToUpper (jsTrim s)) ∧
    validateAndCleanServiceCode t = Except.ok (jsTrim t) := by
  constructor
  · simp [validateAndCleanStopCode, hs]
  · simp [validateAndCleanServiceCode, ht]

/-- Witness for clean_codes_trim_and_case at the concrete inputs " pc205 "
and "c01". -/
theorem clean_codes_trim_and_case_witness :
    validateAndCleanStopCode " pc205 " = Except.ok (jsToUpper (jsTrim " pc205 ")) ∧
    validateAndCleanServiceCode "c01" = Except.ok (jsTrim "c01") :=
  clean_codes_trim_and_case " pc205 " "c01" (by decide) (by decide)

/-- Truthiness of an optional string equals non-emptiness of its getD ""
defaulting. -/
theorem jsTruthyOpt_iff (o : Option String) : jsTruthyOpt o = true ↔ o.getD "" ≠ "" := by
  cases o <;> simp [jsTruthyOpt]

/-- Claim C7 confirmed: every bus entry formatArrivals emits has a non-empty
distancia and a non-empty tiempo, and the buses list of a formatted record
is exactly bus 1 when its labels are non-empty followed by the second-bus
entry exactly when the source record supplied both a truthy (non-empty)
distanciabus2 and a truthy horaprediccionbus2. -/
theorem formatArrivals_bus_labels :
    (∀ (arrivals : List RedStopArrival), ∀ fa ∈ formatArrivals arrivals,
      ∀ bus ∈ fa.buses, bus.distancia ≠ "" ∧ bus.tiempo ≠ "") ∧
    (∀ a : RedStopArrival,
      formatArrivals [a] =
        [{ servicio := a.servicio
           destino := a.destino
           buses :=
             (if a.distanciabus1 ≠ "" ∧ a.horaprediccionbus1 ≠ "" then
               [{ distancia := a.distanciabus1, tiempo := a.horaprediccionbus1
                  patente := a.ppubus1 }]
             else []) ++
             (if jsTruthyOpt a.distanciabus2 = true ∧ jsTruthyOpt a.horaprediccionbus2 = true then
               [{ distancia := a.distanciabus2.getD "", tiempo := a.horaprediccionbus2.getD ""
                  patente := a.ppubus2.getD "" }]
             else []) }]) := by
  constructor
  · intro arrivals fa hfa bus hbus
    simp only [formatArrivals, List.mem_map] at hfa
    obtain ⟨a, _, rfl⟩ := hfa
    simp only [List.mem_filter, Bool.and_eq_true, bne_iff_ne, ne_eq] at hbus
    exact ⟨hbus.2.1, hbus.2.2⟩
  · intro a
    simp only [formatArrivals, List.map_cons, List.map_nil, List.cons.injEq, and_true,
      FormattedArrival.mk.injEq, true_and]
    have ep1 : ((a.distanciabus1 != "" && a.horaprediccionbus1 != "") = true) ↔
        (a.distanciabus1 ≠ "" ∧ a.horaprediccionbus1 ≠ "") := by
      simp [Bool.and_eq_true, bne_iff_ne]
    by_cases h2 : jsTruthyOpt a.distanciabus2 = true
    · rw [if_pos h2]
      simp only [List.cons_append, List.nil_append, List.filter_cons, List.filter_nil]
      have h2d : a.distanciabus2.getD "" ≠ "" := (jsTruthyOpt_iff a.distanciabus2).mp h2
      have ep2 : ((a.distanciabus2.getD "" != "" && a.horaprediccionbus2.getD "" != "") = true) ↔
          (jsTruthyOpt a.horaprediccionbus2 = true) := by
        simp [Bool.and_eq_true, bne_iff_ne, jsTruthyOpt_iff, h2d]
      simp only [h2, true_and]
      by_cases hc1 : a.distanciabus1 ≠ "" ∧ a.horaprediccionbus1 ≠ ""
      · rw [if_pos (ep1.mpr hc1), if_pos hc1]
        by_cases hc2 : jsTruthyOpt a.horaprediccionbus2 = true
        · rw [if_pos (ep2.mpr hc2), if_pos hc2]
          rfl
        · rw [if_neg fun hq => hc2 (ep2.mp hq), if_neg hc2]
          rfl
      · rw [if_neg fun hq => hc1 (ep1.mp hq), if_neg hc1]
        by_cases hc2 : jsTruthyOpt a.horaprediccionbus2 = true
        · rw [if_pos (ep2.mpr hc2), if_pos hc2]
          rfl
        · rw [if_neg fun hq => hc2 (ep2.mp hq), if_neg hc2]
          rfl
    · rw [if_neg h2]
      simp only [List.append_nil, List.filter_cons, List.filter_nil]
      have hC2 : ¬ (jsTruthyOpt a.distanciabus2 = true ∧ jsTruthyOpt a.horaprediccionbus2 = true) :=
        fun hc => h2 hc.1
      by_cases hc1 : a.distanciabus1 ≠ "" ∧ a.horaprediccionbus1 ≠ ""
      · rw [if_pos (ep1.mpr hc1), if_pos hc1, if_neg hC2, List.append_nil]
      · rw [if_neg fun hq => hc1 (ep1.mp hq), if_neg hc1, if_neg hC2, List.append_nil]

/-- A candidate the pattern loop selects is one of the pattern captures and
meets the 20-character minimum. -/
theorem findJwtCandidate_mem (ms : List (Option String)) (rawToken : String)
    (h : findJwtCandidate ms = some rawToken) :
    some rawToken ∈ ms ∧ 20 ≤ rawToken.length := by
  induction ms with
  | nil => exact absurd h (by simp [findJwtCandidate])
  | cons head rest ih =>
    cases head with
    | none =>
      have := ih (by simpa [findJwtCandidate] using h)
      exact ⟨List.mem_cons_of_mem _ this.1, this.2⟩
    | some t =>
      by_cases hshort : t.length < 20
      · have := ih (by simpa [findJwtCandidate, hshort] using h)
        exact ⟨List.mem_cons_of_mem _ this.1, this.2⟩
      · have ht : t = rawToken := by
          have := h
          simp only [findJwtCandidate, if_neg hshort, Option.some.injEq] at this
          exact this
        subst ht
        exact ⟨List.mem_cons_self _ _, by omega⟩

/-- When every capture is under the 20-character minimum the loop selects
nothing. -/
theorem findJwtCandidate_none (ms : List (Option String))
    (h : ∀ rawToken, some rawToken ∈ ms → rawToken.length < 20) :
    findJwtCandidate ms = none := by
  induction ms with
  | nil => rfl
  | cons head rest ih =>
    cases head with
    | none =>
      simpa [findJwtCandidate] using ih fun r hr => h r (List.mem_cons_of_mem _ hr)
    | some t =>
      have hshort : t.length < 20 := h t (List.mem_cons_self _ _)
      simpa [findJwtCandidate, hshort] using
        ih fun r hr => h r (List.mem_cons_of_mem _ hr)

/-- Claim C5 confirmed: for every html input (every list of per-pattern
captures) a capture shorter than 20 characters is never accepted — if all
captures are short no token is installed at all — and an installed token is
the base64 decoding of the accepted capture when it decodes, the raw capture
otherwise, with expiry now + jwtCacheTime. -/
theorem extractAndSetJwt_threshold_and_decode :
    (∀ (decodeBase64 : String → Option String) (jwtCacheTime now htmlLength : Nat)
      (patternMatches : List (Option String)) (cache : JWTCache),
      extractAndSetJwt decodeBase64 jwtCacheTime now htmlLength patternMatches = some cache →
      ∃ rawToken, some rawToken ∈ patternMatches ∧ 20 ≤ rawToken.length ∧
        cache.token = (decodeBase64 rawToken).getD rawToken ∧
        cache.expiry = now + jwtCacheTime) ∧
    (∀ (decodeBase64 : String → Option String) (jwtCacheTime now htmlLength : Nat)
      (patternMatches : List (Option String)),
      (∀ rawToken, some rawToken ∈ patternMatches → rawToken.length < 20) →
      extractAndSetJwt decodeBase64 jwtCacheTime now htmlLength patternMatches = none) := by
  constructor
  · intro decodeBase64 jwtCacheTime now htmlLength patternMatches cache h
    unfold extractAndSetJwt at h
    by_cases hshort : htmlLength < 100
    · simp [hshort] at h
    · rw [if_neg hshort] at h
      cases hfind : findJwtCandidate patternMatches with
      | none => rw [hfind] at h; exact absurd h (by simp)
      | some rawToken =>
        rw [hfind] at h
        obtain ⟨hmem, hlen⟩ := findJwtCandidate_mem patternMatches rawToken hfind
        refine ⟨rawToken, hmem, hlen, ?_⟩
        have h2 : (match decodeBase64 rawToken with
            | some decoded => some { token := decoded, expiry := now + jwtCacheTime }
            | none => some { token := rawToken, expiry := now + jwtCacheTime }) = some cache := h
        cases hdec : decodeBase64 rawToken with
        | none =>
          rw [hdec] at h2
          cases h2
          exact ⟨rfl, rfl⟩
        | some decoded =>
          rw [hdec] at h2
          cases h2
          exact ⟨rfl, rfl⟩
  · intro decodeBase64 jwtCacheTime now htmlLength patternMatches h
    unfold extractAndSetJwt
    rw [findJwtCandidate_none patternMatches h]
    split <;> rfl

/-- Claim C8 confirmed: while the cached credential is valid (non-empty
token, call time below expiry), any number of successive refreshJwtIfNeeded
calls issues zero acquisition rounds and leaves the cache unchanged,
whatever the acquisition strategies would return. -/
theorem refresh_noop_while_valid (tryOriginal tryVercel : Option JWTCache)
    (times : List Nat) (cache : JWTCache)
    (htok : cache.token ≠ "") (hexp : ∀ t ∈ times, t < cache.expiry) :
    runRefreshCalls tryOriginal tryVercel times cache = Except.ok (cache, 0) := by
  induction times with
  | nil => rfl
  | cons t ts ih =>
    have hvalid : (cache.token != "" && decide (t < cache.expiry)) = true := by
      simp [bne_iff_ne, htok, hexp t (List.mem_cons_self _ _)]
    have hone : refreshJwtIfNeeded tryOriginal tryVercel t cache = Except.ok (cache, 0) := by
      unfold refreshJwtIfNeeded
      rw [if_pos hvalid]
    have hrest := ih fun u hu => hexp u (List.mem_cons_of_mem _ hu)
    simp only [runRefreshCalls, hone, hrest, Nat.zero_add]

/-- Witness for refresh_noop_while_valid: three rapid calls at times 1, 2, 3
against a cache expiring at 1000 return it unchanged with zero acquisition
rounds. -/
theorem refresh_noop_while_valid_witness :
    runRefreshCalls none none [1, 2, 3] { token := "cached-token", expiry := 1000 }
      = Except.ok ({ token := "cached-token", expiry := 1000 }, 0) :=
  refresh_noop_while_valid none none [1, 2, 3] { token := "cached-token", expiry := 1000 }
    (by decide) (by decide)

/-- Claim C9 confirmed: right after invalidateJwtCache, getJwtCacheInfo
reports hasToken = false and isValid = false at every time, and the next
refreshJwtIfNeeded call never reuses the cached value: it installs what an
acquisition strategy returns (1 or 2 rounds issued) or fails with the 503
RedClientError when both strategies fail. -/
theorem invalidate_forces_fresh_acquisition (now : Nat) (cache : JWTCache)
    (tryOriginal tryVercel : Option JWTCache) :
    (getJwtCacheInfo now (invalidateJwtCache cache)).hasToken = false ∧
    (getJwtCacheInfo now (invalidateJwtCache cache)).isValid = false ∧
    refreshJwtIfNeeded tryOriginal tryVercel now (invalidateJwtCache cache) =
      (match tryOriginal with
       | some newCache => Except.ok (newCache, 1)
       | none =>
         match tryVercel with
         | some newCache => Except.ok (newCache, 2)
         | none =>
           Except.error
             { message := "No se pudo obtener token de autenticación después de múltiples intentos"
               statusCode := 503 }) := by
  refine ⟨rfl, rfl, ?_⟩
  unfold refreshJwtIfNeeded invalidateJwtCache
  rw [if_neg (by simp)]

/-- Claim C10 confirmed: whenever the upstream route response carries an ida
leg, RouteService.getRoute, RouteService.getRouteStops and the index.ts
routes handler all operate on the ida leg (the regreso leg is ignored), and
when ida is absent the regreso leg (or the no-data failure) is used. -/
theorem route_operations_prefer_ida (codser : String) (d : RedApiRouteResponse)
    (i : RouteLegRaw) (hvalid : (validateServiceCode codser).valid = true) :
    (d.ida = some i →
      routeServiceGetRoute codser (fun _ => Except.ok d)
        = Except.ok { success := true, data := normalizeRouteLeg i, error := none } ∧
      routeServiceGetRouteStops codser (fun _ => Except.ok d)
        = Except.ok { success := true
                      data := routeStopsDataOf codser (normalizeRouteLeg i)
                      error := none } ∧
      indexRouteData d = some (normalizeRouteLeg i)) ∧
    (d.ida = none →
      indexRouteData d = d.regreso.map normalizeRouteLeg ∧
      routeServiceGetRoute codser (fun _ => Except.ok d)
        = (match d.regreso with
           | some r => Except.ok { success := true, data := normalizeRouteLeg r, error := none }
           | none => Except.ok { success := false, data := emptyRedRoute
                                 error := some "No se encontraron datos de recorrido" })) := by
  constructor
  · intro hida
    have hroute : routeServiceGetRoute codser (fun _ => Except.ok d)
        = Except.ok { success := true, data := normalizeRouteLeg i, error := none } := by
      simp [routeServiceGetRoute, validateAndCleanServiceCode, hvalid, hida, jsOrOpt]
    refine ⟨hroute, ?_, ?_⟩
    · simp [routeServiceGetRouteStops, hroute]
    · simp [indexRouteData, hida, jsOrOpt]
  · intro hida
    constructor
    · simp [indexRouteData, hida, jsOrOpt]
    · cases hreg : d.regreso with
      | some r =>
        simp [routeServiceGetRoute, validateAndCleanServiceCode, hvalid, hida, hreg, jsOrOpt]
      | none =>
        simp [routeServiceGetRoute, validateAndCleanServiceCode, hvalid, hida, hreg, jsOrOpt]

/-- Witness for route_operations_prefer_ida at service code "405" and a
response carrying both a concrete ida and a concrete regreso leg. -/
theorem route_operations_prefer_ida_witness :
    (bothLegsData.ida = some legIda →
      routeServiceGetRoute "405" (fun _ => Except.ok bothLegsData)
        = Except.ok { success := true, data := normalizeRouteLeg legIda, error := none } ∧
      routeServiceGetRouteStops "405" (fun _ => Except.ok bothLegsData)
        = Except.ok { success := true
                      data := routeStopsDataOf "405" (normalizeRouteLeg legIda)
                      error := none } ∧
      indexRouteData bothLegsData = some (normalizeRouteLeg legIda)) ∧
    (bothLegsData.ida = none →
      indexRouteData bothLegsData = bothLegsData.regreso.map normalizeRouteLeg ∧
      routeServiceGetRoute "405" (fun _ => Except.ok bothLegsData)
        = (match bothLegsData.regreso with
           | some r => Except.ok { success := true, data := normalizeRouteLeg r, error := none }
           | none => Except.ok { success := false, data := emptyRedRoute
                                 error := some "No se encontraron datos de recorrido" })) :=
  route_operations_prefer_ida "405" bothLegsData legIda (by decide)

end LlegaPo
